import Mathlib

set_option maxRecDepth 20000

/-!
Verification of the Tutor-GPT OpenWebUI pipe adapter
(`openwebui-pipe/tutor_gpt_pipe.py`) against its specification.

The adapter's single interesting operation is the async generator
`Pipe.pipe(body, __user__)`, which forwards a chat request to a remote
memory proxy and streams the proxy's server-sent-event lines back.  We give
a shallow embedding: the remote side's behaviour (connection failure,
timeout, other exception, or an HTTP response with a status code, a
best-effort parsed error body, a list of streamed lines and an optional
mid-stream failure) is a data type, and `pipe` becomes a total function
from the configuration, the request body, the user context and the remote
behaviour to the produced list of chunks together with the observable side
effects (the mutated body mapping, whether a network call was attempted,
and the headers and body that would be sent).
-/

/-- Translation of Python `s.startswith(pre)`: `pre` is a prefix of `s`. -/
def pyStartsWith (s pre : String) : Bool :=
  s.data.take pre.data.length == pre.data

/-- Translation of Python `s.rstrip('/')`: remove every trailing `'/'`. -/
def pyRstripSlashes (s : String) : String :=
  ⟨(s.data.reverse.dropWhile (· == '/')).reverse⟩

/-- One lowercase hexadecimal digit, as produced by Python string formatting. -/
def hexDigit (n : Nat) : Char :=
  if n < 10 then Char.ofNat (48 + n) else Char.ofNat (87 + n)

/-- Four lowercase hexadecimal digits, as in Python's `\u0001` escapes. -/
def uHex4 (n : Nat) : String :=
  ⟨[hexDigit (n / 4096 % 16), hexDigit (n / 256 % 16),
    hexDigit (n / 16 % 16), hexDigit (n % 16)]⟩

/-- How Python's `json.dumps` (default `ensure_ascii=True`) escapes one
character inside a string literal. -/
def jsonEscapeChar (c : Char) : String :=
  if c = '"' then "\\\""
  else if c = '\\' then "\\\\"
  else if c = '\n' then "\\n"
  else if c = '\t' then "\\t"
  else if c = '\r' then "\\r"
  else if c.toNat = 8 then "\\b"
  else if c.toNat = 12 then "\\f"
  else if c.toNat < 32 then "\\u" ++ uHex4 c.toNat
  else if c.toNat < 127 then ⟨[c]⟩
  else if c.toNat ≤ 65535 then "\\u" ++ uHex4 c.toNat
  else
    "\\u" ++ uHex4 (55296 + (c.toNat - 65536) / 1024)
      ++ "\\u" ++ uHex4 (56320 + (c.toNat - 65536) % 1024)

/-- Python `json.dumps` escaping applied to a whole string. -/
def jsonEscape (s : String) : String :=
  String.join (s.data.map jsonEscapeChar)

/-- `json.dumps({'error': msg})` with Python's default separators. -/
def jsonDumpsError (msg : String) : String :=
  "\x7b\"error\": \"" ++ jsonEscape msg ++ "\"\x7d"

/-- The `Valves` configuration record of the pipe. -/
structure Valves where
  PROXY_URL : String
  PROXY_API_KEY : String
  TIMEOUT_SECONDS : Int
  DEBUG_MODE : Bool
deriving Repr, DecidableEq

/-- The host-supplied user context `__user__`; `id = some i` models a dict
containing the key `"id"` with value `i`, `id = none` a dict without it. -/
structure UserCtx where
  id : Option String
deriving Repr, DecidableEq

/-- The request body mapping: its `stream` field plus the remaining,
opaque fields the adapter never touches. -/
structure Body where
  stream : Option Bool
  rest : List (String × String)
deriving Repr, DecidableEq

/-- The three outbound request headers built by the pipe. -/
structure Headers where
  authorization : String
  contentType : String
  xUserId : String
deriving Repr, DecidableEq

/-- A chunk yielded by the generator: either a forwarded stream line
(rendered as the line with a trailing blank line appended) or an error
frame (rendered as `data: {"error": msg}` plus a blank line). -/
inductive Chunk where
  | data (line : String)
  | error (msg : String)
deriving Repr, DecidableEq

/-- The raw text of a chunk as the generator yields it. -/
def Chunk.render : Chunk → String
  | Chunk.data line => line ++ "\n\n"
  | Chunk.error msg => "data: " ++ jsonDumpsError msg ++ "\n\n"

/-- A network-level failure raised by the HTTP client: `httpx.ConnectError`,
`httpx.TimeoutException`, or any other exception, with its detail text. -/
inductive NetError where
  | connect (detail : String)
  | timeout (detail : String)
  | other (detail : String)
deriving Repr, DecidableEq

/-- An HTTP response from the remote proxy: its status code, the result of
`aread()`-plus-`json.loads` on its body (`some d` when that succeeds and the
parsed details print as `d`, `none` when reading or parsing raises), the
lines `aiter_lines()` delivers, and an optional failure raised mid-stream
after those lines. -/
structure RemoteResponse where
  status : Nat
  errorDetails : Option String
  lines : List String
  streamFail : Option NetError
deriving Repr, DecidableEq

/-- The remote side's behaviour for one invocation: either the request
itself fails, or a response arrives. -/
inductive Remote where
  | failure (e : NetError)
  | response (r : RemoteResponse)
deriving Repr, DecidableEq

/-- Everything observable about one invocation of the generator. -/
structure PipeResult where
  chunks : List Chunk
  body : Body
  networkCalled : Bool
  sentHeaders : Option Headers
  sentBody : Option Body
deriving Repr, DecidableEq

/-- Lines 102-104 of the source: resolve the effective user id. -/
def resolveUserId : Option UserCtx → String
  | some u =>
    match u.id with
    | some i => "openwebui_" ++ i
    | none => "openwebui-user"
  | none => "openwebui-user"

/-- Line 128 of the source: the target URL. -/
def targetUrl (proxyUrl : String) : String :=
  pyRstripSlashes proxyUrl ++ "/v1/chat/completions"

/-- Lines 175-186 of the source: the error chunk emitted for a failure
caught by one of the three `except` clauses. -/
def netErrorChunk (v : Valves) (url : String) : NetError → Chunk
  | NetError.connect _ =>
    Chunk.error ("Cannot connect to memory proxy at " ++ url ++ ". Is the server running?")
  | NetError.timeout _ =>
    Chunk.error ("Request timed out after " ++ toString v.TIMEOUT_SECONDS ++ "s")
  | NetError.other d =>
    Chunk.error ("Unexpected error: " ++ d)

/-- Lines 141-162 of the source: chunks produced by the status checks for
an error status, or `none` when the status passes on to streaming. -/
def statusErrorChunks (url : String) (r : RemoteResponse) : Option (List Chunk) :=
  if r.status == 401 then
    some [Chunk.error "Authentication failed. Please check your PROXY_API_KEY."]
  else if r.status == 404 then
    some [Chunk.error ("Memory proxy not found at " ++ url ++ ". Is the server running?")]
  else if 400 ≤ r.status then
    let errMsg := "Memory proxy error: HTTP " ++ toString r.status
    match r.errorDetails with
    | some d => some [Chunk.error (errMsg ++ ": " ++ d)]
    | none => some [Chunk.error errMsg]
  else
    none

/-- Lines 164-173 of the source: the streaming relay over the delivered
lines (skip empty lines, forward lines starting with `"data: "`). -/
def relayLines (lines : List String) : List Chunk :=
  (lines.filter fun l => !(l == "") && pyStartsWith l "data: ").map Chunk.data

/-- The body of the `try` block (lines 130-173): status handling then
streaming, with a mid-stream failure converted by the `except` clauses. -/
def networkPhase (v : Valves) (url : String) : Remote → List Chunk
  | Remote.failure e => [netErrorChunk v url e]
  | Remote.response r =>
    match statusErrorChunks url r with
    | some cs => cs
    | none =>
      match r.streamFail with
      | some e => relayLines r.lines ++ [netErrorChunk v url e]
      | none => relayLines r.lines

/-- The whole generator `Pipe.pipe` (lines 83-186), as a function of the
configuration, the caller's body, the user context and the remote
behaviour. -/
def pipe (v : Valves) (body : Body) (user : Option UserCtx) (remote : Remote) : PipeResult :=
  let userId := resolveUserId user
  if v.PROXY_API_KEY = "" then
    { chunks := [Chunk.error "PROXY_API_KEY is not configured. Please set it in the Valves configuration."],
      body := body, networkCalled := false, sentHeaders := none, sentBody := none }
  else
    let headers : Headers :=
      { authorization := "Bearer " ++ v.PROXY_API_KEY,
        contentType := "application/json",
        xUserId := userId }
    let body' : Body := { body with stream := some true }
    let url := targetUrl v.PROXY_URL
    { chunks := networkPhase v url remote,
      body := body', networkCalled := true,
      sentHeaders := some headers, sentBody := some body' }

/-- The number of error chunks in a produced sequence. -/
def errorCount (cs : List Chunk) : Nat :=
  (cs.filter fun c => match c with | Chunk.error _ => true | Chunk.data _ => false).length

/-- A complete server-sent-event frame: begins with `"data: "` and ends
with a blank line. -/
def isSSEFrame (s : String) : Prop :=
  (∃ rest, s = "data: " ++ rest) ∧ (∃ core, s = core ++ "\n\n")

/-- A fixed example configuration with an empty API key, for witnesses. -/
def valvesNoKey : Valves :=
  { PROXY_URL := "http://localhost:8081", PROXY_API_KEY := "",
    TIMEOUT_SECONDS := 300, DEBUG_MODE := false }

/-- A fixed example configuration with an API key set, for witnesses. -/
def valvesWithKey : Valves :=
  { PROXY_URL := "http://localhost:8081", PROXY_API_KEY := "secret",
    TIMEOUT_SECONDS := 300, DEBUG_MODE := false }

/-- A fixed example request body, for witnesses. -/
def bodyExample : Body :=
  { stream := some false, rest := [("messages", "hello")] }

/-- An empty line never passes the `"data: "` prefix test, so the source's
separate empty-line skip changes nothing. -/
theorem pyStartsWith_data_of_ne_empty (l : String) (h : pyStartsWith l "data: " = true) :
    (l == "") = false := by
  rcases l with ⟨ls⟩
  cases ls with
  | nil => simp [pyStartsWith] at h
  | cons c cs => simp [BEq.beq, String.decEq, String.ext_iff]

/-- On delivered lines the relay keeps exactly those starting with
`"data: "`, in order, each rendered as itself plus a trailing blank line. -/
theorem relayLines_render (lines : List String) :
    (relayLines lines).map Chunk.render =
      (lines.filter fun l => pyStartsWith l "data: ").map (fun l => l ++ "\n\n") := by
  unfold relayLines
  rw [List.map_map]
  have hfilter : (lines.filter fun l => !(l == "") && pyStartsWith l "data: ") =
      lines.filter fun l => pyStartsWith l "data: " := by
    apply List.filter_congr
    intro l _
    cases hpre : pyStartsWith l "data: " with
    | true => simp [pyStartsWith_data_of_ne_empty l hpre]
    | false => simp

  rw [hfilter]
  rfl

/-- For a status below 400 the status checks pass through to streaming. -/
theorem statusErrorChunks_none (url : String) (r : RemoteResponse) (h : r.status < 400) :
    statusErrorChunks url r = none := by
  have h401 : (r.status == 401) = false := by simp; omega
  have h404 : (r.status == 404) = false := by simp; omega
  have h400 : ¬ (400 ≤ r.status) := by omega
  simp [statusErrorChunks, h401, h404, h400]

/-- C2: for a remote response with a success status, the generator yields,
in original order, exactly one chunk per delivered line beginning with
`"data: "`, each equal to that line with a trailing blank line appended,
skipping empty lines and dropping all other lines. -/
theorem C2_stream_relay (v : Valves) (body : Body) (user : Option UserCtx) (r : RemoteResponse)
    (hkey : v.PROXY_API_KEY ≠ "") (hstatus : r.status < 400) (hfail : r.streamFail = none) :
    (pipe v body user (Remote.response r)).chunks.map Chunk.render =
      (r.lines.filter fun l => pyStartsWith l "data: ").map (fun l => l ++ "\n\n") := by
  rw [show (pipe v body user (Remote.response r)).chunks = relayLines r.lines by
    simp [pipe, hkey, networkPhase, statusErrorChunks_none _ r hstatus, hfail]]
  exact relayLines_render r.lines

/-- A fixed example remote response for the C2 witness: two data lines, an
empty line and a non-data line, status 200. -/
def responseC2 : RemoteResponse :=
  { status := 200, errorDetails := none,
    lines := ["data: \x7b\"x\":1\x7d", "", "data: \x7b\"x\":2\x7d", "event: ping"],
    streamFail := none }

/-- Witness for C2 at a concrete response. -/
theorem C2_stream_relay_witness :
    valvesWithKey.PROXY_API_KEY ≠ "" ∧ responseC2.status < 400 ∧ responseC2.streamFail = none ∧
    (pipe valvesWithKey bodyExample none (Remote.response responseC2)).chunks.map Chunk.render =
      (responseC2.lines.filter fun l => pyStartsWith l "data: ").map (fun l => l ++ "\n\n") :=
  ⟨by decide, by decide, rfl,
    C2_stream_relay valvesWithKey bodyExample none responseC2 (by decide) (by decide) rfl⟩

/-- C3: status handling before the body is consumed: 401 and 404 produce
their fixed error chunks (the 404 one naming the target URL) and
terminate; any other status at or above 400 produces the generic
`Memory proxy error` chunk, extended with the parsed error details exactly
when parsing succeeded; any status below 400 proceeds to the streaming
relay. -/
theorem C3_status_handling (v : Valves) (body : Body) (user : Option UserCtx) (r : RemoteResponse)
    (hkey : v.PROXY_API_KEY ≠ "") :
    (r.status = 401 →
      (pipe v body user (Remote.response r)).chunks =
        [Chunk.error "Authentication failed. Please check your PROXY_API_KEY."]) ∧
    (r.status = 404 →
      (pipe v body user (Remote.response r)).chunks =
        [Chunk.error ("Memory proxy not found at " ++ targetUrl v.PROXY_URL ++
          ". Is the server running?")]) ∧
    (r.status ≠ 401 → r.status ≠ 404 → 400 ≤ r.status →
      (∀ d, r.errorDetails = some d →
        (pipe v body user (Remote.response r)).chunks =
          [Chunk.error ("Memory proxy error: HTTP " ++ toString r.status ++ ": " ++ d)]) ∧
      (r.errorDetails = none →
        (pipe v body user (Remote.response r)).chunks =
          [Chunk.error ("Memory proxy error: HTTP " ++ toString r.status)])) ∧
    (r.status < 400 →
      (pipe v body user (Remote.response r)).chunks =
        relayLines r.lines ++ (match r.streamFail with
          | some e => [netErrorChunk v (targetUrl v.PROXY_URL) e]
          | none => [])) := by
  refine ⟨?_, ?_, ?_, ?_⟩
  · intro h
    simp [pipe, hkey, networkPhase, statusErrorChunks, h]
  · intro h
    simp [pipe, hkey, networkPhase, statusErrorChunks, h]
  · intro h401 h404 h400
    have b401 : (r.status == 401) = false := by simp [h401]
    have b404 : (r.status == 404) = false := by simp [h404]
    constructor
    · intro d hd
      simp [pipe, hkey, networkPhase, statusErrorChunks, b401, b404, h400, hd]
    · intro hd
      simp [pipe, hkey, networkPhase, statusErrorChunks, b401, b404, h400, hd]
  · intro h
    cases hf : r.streamFail with
    | some e =>
      simp [pipe, hkey, networkPhase, statusErrorChunks_none _ r h, hf]
    | none =>
      simp [pipe, hkey, networkPhase, statusErrorChunks_none _ r h, hf]

/-- Witness for C3 at a concrete 401 response. -/
theorem C3_status_handling_witness :
    valvesWithKey.PROXY_API_KEY ≠ "" ∧
    ((401 : Nat) = 401 →
      (pipe valvesWithKey bodyExample none
        (Remote.response { status := 401, errorDetails := none, lines := [], streamFail := none })).chunks =
        [Chunk.error "Authentication failed. Please check your PROXY_API_KEY."]) :=
  ⟨by decide,
    (C3_status_handling valvesWithKey bodyExample none
      { status := 401, errorDetails := none, lines := [], streamFail := none } (by decide)).1⟩

/-- The network-level failure, if any, that a remote behaviour raises into
the generator's `except` clauses: a failure of the request itself, or a
mid-stream failure when the status checks passed on to streaming. -/
def remoteNetFailure : Remote → Option NetError
  | Remote.failure e => some e
  | Remote.response r => if r.status < 400 then r.streamFail else none

/-- The relay never produces an error chunk. -/
theorem errorCount_relayLines (lines : List String) : errorCount (relayLines lines) = 0 := by
  simp [errorCount, relayLines, List.filter_map]

/-- C4: every network-level failure — connection failure, timeout, or any
other unexpected failure, whether the request itself fails or the stream
fails after some lines — makes the sequence emit exactly one SSE error
chunk and terminate, with no retry; a connection failure's chunk names the
target URL and a timeout's chunk names the configured timeout value. -/
theorem C4_network_failures (v : Valves) (body : Body) (user : Option UserCtx)
    (remote : Remote) (e : NetError)
    (hkey : v.PROXY_API_KEY ≠ "") (hfail : remoteNetFailure remote = some e) :
    errorCount (pipe v body user remote).chunks = 1 ∧
    (pipe v body user remote).chunks.getLast? =
      some (netErrorChunk v (targetUrl v.PROXY_URL) e) ∧
    (∀ d, e = NetError.connect d →
      (pipe v body user remote).chunks.getLast? =
        some (Chunk.error ("Cannot connect to memory proxy at " ++ targetUrl v.PROXY_URL ++
          ". Is the server running?"))) ∧
    (∀ d, e = NetError.timeout d →
      (pipe v body user remote).chunks.getLast? =
        some (Chunk.error ("Request timed out after " ++ toString v.TIMEOUT_SECONDS ++ "s"))) := by
  have hchunks : (pipe v body user remote).chunks =
      relayLines (match remote with
        | Remote.failure _ => []
        | Remote.response r => r.lines) ++ [netErrorChunk v (targetUrl v.PROXY_URL) e] := by
    cases remote with
    | failure e0 =>
      have he : e0 = e := by simpa [remoteNetFailure] using hfail
      simp [pipe, hkey, networkPhase, relayLines, he]
    | response r =>
      by_cases hst : r.status < 400
      · have hsf : r.streamFail = some e := by simpa [remoteNetFailure, hst] using hfail
        simp [pipe, hkey, networkPhase, statusErrorChunks_none _ r hst, hsf]
      · simp [remoteNetFailure, hst] at hfail
  have hcount : errorCount ((pipe v body user remote).chunks) = 1 := by
    rw [hchunks]
    cases e <;>
      simp [errorCount, netErrorChunk, List.filter_append, List.length_append] <;>
      simpa [errorCount] using errorCount_relayLines _
  have hlast : (pipe v body user remote).chunks.getLast? =
      some (netErrorChunk v (targetUrl v.PROXY_URL) e) := by
    rw [hchunks]
    exact List.getLast?_concat _
  refine ⟨hcount, hlast, ?_, ?_⟩
  · intro d hd
    rw [hlast, hd]
    rfl
  · intro d hd
    rw [hlast, hd]
    rfl

/-- Witness for C4 at a concrete timeout failure. -/
theorem C4_network_failures_witness :
    valvesWithKey.PROXY_API_KEY ≠ "" ∧
    remoteNetFailure (Remote.failure (NetError.timeout "t")) = some (NetError.timeout "t") ∧
    (pipe valvesWithKey bodyExample none (Remote.failure (NetError.timeout "t"))).chunks.getLast? =
      some (netErrorChunk valvesWithKey (targetUrl valvesWithKey.PROXY_URL) (NetError.timeout "t")) :=
  ⟨by decide, rfl,
    (C4_network_failures valvesWithKey bodyExample none
      (Remote.failure (NetError.timeout "t")) (NetError.timeout "t") (by decide) rfl).2.1⟩

/-- C5: whenever the request proceeds past the credential check, the
`X-User-Id` header sent to the remote transport is `"openwebui_"`
concatenated with the user context's identifier when one is present, and
the literal `"openwebui-user"` when the user context is absent or has no
identifier field. -/
theorem C5_user_header (v : Valves) (body : Body) (user : Option UserCtx) (remote : Remote)
    (hkey : v.PROXY_API_KEY ≠ "") :
    (∀ i, user = some { id := some i } →
      (pipe v body user remote).sentHeaders.map Headers.xUserId = some ("openwebui_" ++ i)) ∧
    (user = none ∨ user = some { id := none } →
      (pipe v body user remote).sentHeaders.map Headers.xUserId = some "openwebui-user") := by
  constructor
  · intro i hi
    simp [pipe, hkey, hi, resolveUserId]
  · rintro (h | h) <;> simp [pipe, hkey, h, resolveUserId]

/-- Witness for C5 with a concrete user context carrying id `"abc123"`. -/
theorem C5_user_header_witness :
    valvesWithKey.PROXY_API_KEY ≠ "" ∧
    (pipe valvesWithKey bodyExample (some { id := some "abc123" })
      (Remote.failure (NetError.other "x"))).sentHeaders.map Headers.xUserId =
      some "openwebui_abc123" :=
  ⟨by decide,
    (C5_user_header valvesWithKey bodyExample (some { id := some "abc123" })
      (Remote.failure (NetError.other "x")) (by decide)).1 "abc123" rfl⟩

/-- C6: whatever the `stream` field of the input body was — `true`,
`false` or absent — once the invocation reaches the network phase both the
body sent to the remote transport and the caller's mapping have `stream`
equal to `true`. -/
theorem C6_stream_forced (v : Valves) (body : Body) (user : Option UserCtx) (remote : Remote)
    (hkey : v.PROXY_API_KEY ≠ "") :
    (pipe v body user remote).sentBody = some { body with stream := some true } ∧
    (pipe v body user remote).sentBody.map Body.stream = some (some true) ∧
    (pipe v body user remote).body.stream = some true := by
  refine ⟨?_, ?_, ?_⟩ <;> simp [pipe, hkey]

/-- Witness for C6 with a body whose `stream` was `false`. -/
theorem C6_stream_forced_witness :
    valvesWithKey.PROXY_API_KEY ≠ "" ∧ bodyExample.stream = some false ∧
    (pipe valvesWithKey bodyExample none (Remote.failure (NetError.other "x"))).body.stream =
      some true :=
  ⟨by decide, rfl,
    (C6_stream_forced valvesWithKey bodyExample none
      (Remote.failure (NetError.other "x")) (by decide)).2.2⟩

/-- C10: with an empty `PROXY_API_KEY` the credential check returns before
the body mutation, so the caller's request body mapping is left completely
unmodified — in particular the `stream` flag is not injected — and no
network call is made. -/
theorem C10_no_mutation_on_missing_key (v : Valves) (body : Body) (user : Option UserCtx)
    (remote : Remote) (h : v.PROXY_API_KEY = "") :
    (pipe v body user remote).body = body ∧
    (pipe v body user remote).body.stream = body.stream ∧
    (pipe v body user remote).networkCalled = false := by
  refine ⟨?_, ?_, ?_⟩ <;> simp [pipe, h]

/-- Witness for C10: a body with `stream = some false` stays untouched. -/
theorem C10_no_mutation_on_missing_key_witness :
    valvesNoKey.PROXY_API_KEY = "" ∧
    (pipe valvesNoKey bodyExample none (Remote.failure (NetError.other "x"))).body = bodyExample :=
  ⟨rfl,
    (C10_no_mutation_on_missing_key valvesNoKey bodyExample none
      (Remote.failure (NetError.other "x")) rfl).1⟩

/-- The spec sentence of claim C7 as written: strip exactly one trailing
slash, if one is present. -/
def stripOneTrailingSlash (s : String) : String :=
  match s.data.reverse with
  | [] => s
  | c :: rest => if c = '/' then ⟨rest.reverse⟩ else s

/-- The amended spec for claim C7: remove the whole trailing run of
slashes, keeping the front of the string. -/
def stripAllTrailingSlashes (s : String) : String :=
  ⟨s.data.take (s.data.length - (s.data.reverse.takeWhile (· == '/')).length)⟩

/-- Dropping a predicate's prefix of a list, reversed, is taking the
complementary front of the reversed list. -/
theorem dropWhile_reverse_take (q : Char → Bool) (m : List Char) :
    (m.dropWhile q).reverse = m.reverse.take (m.length - (m.takeWhile q).length) := by
  induction m with
  | nil => simp
  | cons c m ih =>
    by_cases hc : q c
    · rw [List.dropWhile_cons_of_pos hc, List.takeWhile_cons_of_pos hc]
      simp only [List.length_cons, List.reverse_cons]
      have hle : (m.takeWhile q).length ≤ m.length := (List.takeWhile_prefix q).length_le
      rw [show m.length + 1 - ((m.takeWhile q).length + 1) =
        m.length - (m.takeWhile q).length by omega]
      rw [List.take_append_of_le_length (by simp)]
      exact ih
    · rw [List.dropWhile_cons_of_neg hc, List.takeWhile_cons_of_neg hc]
      rw [List.take_of_length_le (by simp)]

/-- Python's `rstrip('/')` coincides with the amended spec's description. -/
theorem pyRstripSlashes_eq_stripAll (s : String) :
    pyRstripSlashes s = stripAllTrailingSlashes s := by
  unfold pyRstripSlashes stripAllTrailingSlashes
  rw [dropWhile_reverse_take]
  simp

/-- C7 counterexample: with two trailing slashes the code's `rstrip('/')`
removes both, so the URL built per the claim's "exactly one trailing slash
stripped" differs from the code's target URL at `PROXY_URL =
"http://x//"`. -/
theorem C7_counterexample :
    targetUrl "http://x//" = "http://x/v1/chat/completions" ∧
    stripOneTrailingSlash "http://x//" ++ "/v1/chat/completions" =
      "http://x//v1/chat/completions" ∧
    targetUrl "http://x//" ≠ stripOneTrailingSlash "http://x//" ++ "/v1/chat/completions" := by
  refine ⟨by decide, by decide, by decide⟩

/-- C7 (amended): the target URL equals `PROXY_URL` with its whole run of
trailing slashes stripped, concatenated with `"/v1/chat/completions"`; in
particular a `PROXY_URL` ending in a single slash produces no double
slash. -/
theorem C7_target_url (p : String) :
    targetUrl p = stripAllTrailingSlashes p ++ "/v1/chat/completions" ∧
    targetUrl "http://x/" = "http://x/v1/chat/completions" :=
  ⟨by rw [targetUrl, pyRstripSlashes_eq_stripAll], by decide⟩

/-- The chunk emitted for a caught network failure is an error chunk. -/
theorem netErrorChunk_is_error (v : Valves) (url : String) (e : NetError) :
    ∃ m, netErrorChunk v url e = Chunk.error m := by
  cases e <;> exact ⟨_, rfl⟩

/-- When the status checks emit chunks, they emit a single error chunk. -/
theorem statusErrorChunks_shape (url : String) (r : RemoteResponse) (cs : List Chunk)
    (h : statusErrorChunks url r = some cs) : ∃ m, cs = [Chunk.error m] := by
  unfold statusErrorChunks at h
  split at h
  · exact ⟨_, (Option.some.inj h).symm⟩
  · split at h
    · exact ⟨_, (Option.some.inj h).symm⟩
    · split at h
      · split at h
        · exact ⟨_, (Option.some.inj h).symm⟩
        · exact ⟨_, (Option.some.inj h).symm⟩
      · exact Option.noConfusion h

/-- The relay never produces an error chunk. -/
theorem error_not_mem_relayLines (lines : List String) (m : String) :
    Chunk.error m ∉ relayLines lines := by
  simp [relayLines]

/-- Every possible output of the generator is a relay run, optionally
followed by a single error chunk. -/
theorem pipe_chunks_shape (v : Valves) (body : Body) (user : Option UserCtx) (remote : Remote) :
    (∃ lines, (pipe v body user remote).chunks = relayLines lines) ∨
    (∃ lines m, (pipe v body user remote).chunks = relayLines lines ++ [Chunk.error m]) := by
  by_cases hkey : v.PROXY_API_KEY = ""
  · exact Or.inr ⟨[],
      "PROXY_API_KEY is not configured. Please set it in the Valves configuration.",
      by simp [pipe, hkey, relayLines]⟩
  · cases remote with
    | failure e =>
      obtain ⟨m, hm⟩ := netErrorChunk_is_error v (targetUrl v.PROXY_URL) e
      exact Or.inr ⟨[], m, by simp [pipe, hkey, networkPhase, relayLines, hm]⟩
    | response r =>
      cases hs : statusErrorChunks (targetUrl v.PROXY_URL) r with
      | some cs =>
        obtain ⟨m, rfl⟩ := statusErrorChunks_shape _ r cs hs
        exact Or.inr ⟨[], m, by simp [pipe, hkey, networkPhase, hs, relayLines]⟩
      | none =>
        cases hf : r.streamFail with
        | some e =>
          obtain ⟨m, hm⟩ := netErrorChunk_is_error v (targetUrl v.PROXY_URL) e
          exact Or.inr ⟨r.lines, m, by simp [pipe, hkey, networkPhase, hs, hf, hm]⟩
        | none =>
          exact Or.inl ⟨r.lines, by simp [pipe, hkey, networkPhase, hs, hf]⟩

/-- C8: over every configuration, body, user context and remote behaviour,
the generator emits at most one error chunk, and when an error chunk is
emitted it is the last chunk of the sequence — every failure is converted
into that chunk on the normal output channel rather than escaping. -/
theorem C8_single_error (v : Valves) (body : Body) (user : Option UserCtx) (remote : Remote) :
    errorCount (pipe v body user remote).chunks ≤ 1 ∧
    ∀ m, Chunk.error m ∈ (pipe v body user remote).chunks →
      (pipe v body user remote).chunks.getLast? = some (Chunk.error m) := by
  rcases pipe_chunks_shape v body user remote with ⟨lines, h⟩ | ⟨lines, m, h⟩
  · rw [h]
    refine ⟨by simp [errorCount_relayLines], ?_⟩
    intro m hm
    exact absurd hm (error_not_mem_relayLines lines m)
  · rw [h]
    constructor
    · have h0 := errorCount_relayLines lines
      rw [errorCount] at h0 ⊢
      rw [List.filter_append, List.length_append, h0]
      simp [List.filter]
    · intro mm hm
      rcases List.mem_append.mp hm with hin | hin
      · exact absurd hin (error_not_mem_relayLines lines mm)
      · have hmm : mm = m := by simpa using hin
        subst hmm
        exact List.getLast?_concat _

/-- Concatenation of strings is associative. -/
theorem string_append_assoc (a b c : String) : a ++ b ++ c = a ++ (b ++ c) := by
  rcases a with ⟨a⟩; rcases b with ⟨b⟩; rcases c with ⟨c⟩
  exact congrArg String.mk (List.append_assoc a b c)

/-- A Python-style prefix test succeeding splits the string. -/
theorem pyStartsWith_decompose (l p : String) (h : pyStartsWith l p = true) :
    ∃ rest, l = p ++ rest := by
  refine ⟨⟨l.data.drop p.data.length⟩, ?_⟩
  have htake : l.data.take p.data.length = p.data := by
    simpa [pyStartsWith] using h
  have : l.data = p.data ++ l.data.drop p.data.length := by
    conv_lhs => rw [← List.take_append_drop p.data.length l.data]
    rw [htake]
  calc l = ⟨l.data⟩ := rfl
    _ = ⟨p.data ++ l.data.drop p.data.length⟩ := congrArg String.mk this
    _ = p ++ ⟨l.data.drop p.data.length⟩ := rfl

/-- An error chunk renders as a complete SSE frame. -/
theorem errorChunk_isSSEFrame (m : String) : isSSEFrame (Chunk.error m).render := by
  constructor
  · exact ⟨jsonDumpsError m ++ "\n\n", string_append_assoc _ _ _⟩
  · exact ⟨"data: " ++ jsonDumpsError m, rfl⟩

/-- Every relayed chunk renders as a complete SSE frame. -/
theorem relayLines_isSSEFrame (lines : List String) :
    ∀ c ∈ relayLines lines, isSSEFrame c.render := by
  intro c hc
  rw [relayLines] at hc
  rcases List.mem_map.mp hc with ⟨l, hl, rfl⟩
  have hpre : pyStartsWith l "data: " = true :=
    ((Bool.and_eq_true _ _).mp ((List.mem_filter.mp hl).2)).2
  obtain ⟨rest, hrest⟩ := pyStartsWith_decompose l "data: " hpre
  constructor
  · exact ⟨rest ++ "\n\n", by rw [Chunk.render, hrest]; exact string_append_assoc _ _ _⟩
  · exact ⟨l, rfl⟩

/-- C9: every chunk the generator yields, on every control path, renders
as a complete server-sent-event frame: it begins with the literal prefix
`"data: "` and ends with a blank line. -/
theorem C9_sse_frames (v : Valves) (body : Body) (user : Option UserCtx) (remote : Remote) :
    ∀ c ∈ (pipe v body user remote).chunks, isSSEFrame c.render := by
  intro c hc
  rcases pipe_chunks_shape v body user remote with ⟨lines, h⟩ | ⟨lines, m, h⟩
  · rw [h] at hc
    exact relayLines_isSSEFrame lines c hc
  · rw [h] at hc
    rcases List.mem_append.mp hc with hin | hin
    · exact relayLines_isSSEFrame lines c hin
    · have : c = Chunk.error m := by simpa using hin
      rw [this]
      exact errorChunk_isSSEFrame m

/-- Witness for C9 at a concrete relayed chunk. -/
theorem C9_sse_frames_witness :
    Chunk.data "data: \x7b\"x\":1\x7d" ∈
      (pipe valvesWithKey bodyExample none (Remote.response responseC2)).chunks ∧
    isSSEFrame (Chunk.data "data: \x7b\"x\":1\x7d").render :=
  ⟨by decide,
    C9_sse_frames valvesWithKey bodyExample none (Remote.response responseC2)
      (Chunk.data "data: \x7b\"x\":1\x7d") (by decide)⟩

/-- C1: with an empty `PROXY_API_KEY`, the generator yields exactly one
chunk, the SSE error frame whose JSON payload's error message is
`"PROXY_API_KEY is not configured. Please set it in the Valves
configuration."`, then terminates, and no network call is made. -/
theorem C1_missing_key (v : Valves) (body : Body) (user : Option UserCtx) (remote : Remote)
    (h : v.PROXY_API_KEY = "") :
    (pipe v body user remote).chunks =
      [Chunk.error "PROXY_API_KEY is not configured. Please set it in the Valves configuration."] ∧
    (pipe v body user remote).chunks.map Chunk.render =
      ["data: \x7b\"error\": \"PROXY_API_KEY is not configured. Please set it in the Valves configuration.\"\x7d\n\n"] ∧
    (pipe v body user remote).networkCalled = false := by
  refine ⟨?_, ?_, ?_⟩ <;> simp [pipe, h, Chunk.render, jsonDumpsError, jsonEscape]
  decide

/-- Witness for C1 at a concrete configuration. -/
theorem C1_missing_key_witness :
    valvesNoKey.PROXY_API_KEY = "" ∧
    ((pipe valvesNoKey bodyExample none (Remote.failure (NetError.other "x"))).chunks =
      [Chunk.error "PROXY_API_KEY is not configured. Please set it in the Valves configuration."] ∧
    (pipe valvesNoKey bodyExample none (Remote.failure (NetError.other "x"))).chunks.map Chunk.render =
      ["data: \x7b\"error\": \"PROXY_API_KEY is not configured. Please set it in the Valves configuration.\"\x7d\n\n"] ∧
    (pipe valvesNoKey bodyExample none (Remote.failure (NetError.other "x"))).networkCalled = false) :=
  ⟨rfl, C1_missing_key valvesNoKey bodyExample none (Remote.failure (NetError.other "x")) rfl⟩
